import Mathlib

/-!
Shallow embedding of the card win-rate analysis application (`app.py`):
the record data model, the color→type lookup, the filter engine
(`cached_filter`), the grouping/aggregation engine (`cached_groupby` /
`calculate_stats`), and the load step (`_load_df`).  Rows of the pandas
DataFrame become a Lean structure; the DataFrame itself becomes a
`List Row` kept in source order; counts are `Nat` and rates are `ℚ`;
the NaN produced by `mean()` on an empty subset is `Option.none`.
-/

namespace TTA

/-- One raw CSV record, before the derived `类型` (card type) column is
added by `_load_df`.  Column names are romanized: 组别=group, 颜色=color,
中文名/卡名=cardName, 行为=action, 先后=seatOrder, 玩家=player, 轮次=round,
花费=cost, 胜负=outcome, CODE=matchCode. -/
structure RawRow where
  group : String
  color : Int
  cardName : String
  action : String
  seatOrder : String
  player : String
  round : Int
  cost : Int
  outcome : String
  matchCode : String
deriving DecidableEq, Repr

/-- One row of the loaded DataFrame, with the derived `类型` (cardType)
column; `none` models the NaN that `Series.map` yields on an unmapped
color code. -/
structure Row where
  group : String
  color : Int
  cardType : Option String
  cardName : String
  action : String
  seatOrder : String
  player : String
  round : Int
  cost : Int
  outcome : String
  matchCode : String
deriving DecidableEq, Repr

/-- The fixed COLOR_MAPPING dict of `app.py`; codes absent from the table
map to `none` (pandas NaN). -/
def COLOR_MAPPING : Int → Option String := fun c =>
  match c with
  | 4 => some "奇迹"
  | 8 => some "行动"
  | 9 => some "领袖"
  | 10 => some "农矿"
  | 11 => some "事件"
  | 12 => some "建筑"
  | 13 => some "部队"
  | 14 => some "政府"
  | 15 => some "蓝科"
  | 16 => some "阵形"
  | 18 => some "侵略"
  | 21 => some "战争"
  | _ => none

/-- The per-row effect of `_load_df`: copy the typed columns and add
`类型 = 颜色.map(COLOR_MAPPING)` (rename 中文名→卡名 is implicit in the
field names). -/
def loadRow (r : RawRow) : Row :=
  { group := r.group
    color := r.color
    cardType := COLOR_MAPPING r.color
    cardName := r.cardName
    action := r.action
    seatOrder := r.seatOrder
    player := r.player
    round := r.round
    cost := r.cost
    outcome := r.outcome
    matchCode := r.matchCode }

/-- `GameAnalyze._load_df`: reads the CSV and adds the derived 类型 column
via `df['颜色'].map(COLOR_MAPPING)`.  The map step is total: unmapped
codes become missing values, no exception is raised. -/
def load_df (rows : List RawRow) : List Row := rows.map loadRow

/-- The Win literal `'赢'` used by `calculate_stats`. -/
def WIN_LITERAL : String := "赢"

/-- The `胜场` mask of `calculate_stats`: `group['胜负'].eq('赢')`. -/
def isWin (r : Row) : Bool := r.outcome == WIN_LITERAL

/-- Rows of the group selected by the `胜场` mask. -/
def winRows (g : List Row) : List Row := g.filter isWin

/-- Rows of the group selected by the `负场` mask:
`group['胜负'].ne('赢')`. -/
def lossRows (g : List Row) : List Row := g.filter (fun r => !(isWin r))

/-- The deduplication key `['CODE', '玩家']` = (match_code, player). -/
def pairKey (r : Row) : String × String := (r.matchCode, r.player)

/-- `group.loc[mask, ['CODE','玩家']].drop_duplicates().shape[0]`:
the number of distinct (match_code, player) pairs among the rows. -/
def uniqueCount (rows : List Row) : Nat := ((rows.map pairKey).dedup).length

/-- `Series.mean()`: the arithmetic mean of a column over a list of rows;
`none` models the NaN returned on an empty selection. -/
def listMean (xs : List Int) : Option ℚ :=
  if xs.isEmpty then none else some ((xs.sum : ℚ) / (xs.length : ℚ))

/-- The Series returned by `calculate_stats` for one group:
胜率 winRate, 总场数 totalCount, 胜场数 winCount, 负场数 lossCount, and the
six 平均 (average) fields over 轮次 (round) and 花费 (cost). -/
structure Stats where
  winRate : ℚ
  totalCount : Nat
  winCount : Nat
  lossCount : Nat
  avgRoundAll : Option ℚ
  avgRoundWin : Option ℚ
  avgRoundLoss : Option ℚ
  avgCostAll : Option ℚ
  avgCostWin : Option ℚ
  avgCostLoss : Option ℚ
deriving DecidableEq, Repr

/-- `calculate_stats(group)` from `app.py`: deduplicated counts of the
total / win / loss masks, the win rate (0 on an empty group), and the
raw-row averages of round and cost per mask. -/
def calculate_stats (g : List Row) : Stats :=
  let total := uniqueCount g
  let win := uniqueCount (winRows g)
  let loss := uniqueCount (lossRows g)
  { winRate := if total > 0 then (win : ℚ) / (total : ℚ) else 0
    totalCount := total
    winCount := win
    lossCount := loss
    avgRoundAll := listMean (g.map Row.round)
    avgRoundWin := listMean ((winRows g).map Row.round)
    avgRoundLoss := listMean ((lossRows g).map Row.round)
    avgCostAll := listMean (g.map Row.cost)
    avgCostWin := listMean ((winRows g).map Row.cost)
    avgCostLoss := listMean ((lossRows g).map Row.cost) }

/-- The columns the sidebar filters and the analysis dimensions range
over (`multi_filters`, `range_filters`, `ANAL_DIMS`). -/
inductive Col where
  | group | cardType | cardName | action | seatOrder | player | round | cost
deriving DecidableEq, Repr

/-- A cell value: categorical columns hold strings, 轮次/花费 hold
integers, and `vnone` is the missing value of an unmapped card type. -/
inductive Value where
  | vs : String → Value
  | vi : Int → Value
  | vnone : Value
deriving DecidableEq, Repr

/-- The value a row holds in a column. -/
def colValue (r : Row) : Col → Value
  | Col.group => Value.vs r.group
  | Col.cardType =>
      match r.cardType with
      | some s => Value.vs s
      | none => Value.vnone
  | Col.cardName => Value.vs r.cardName
  | Col.action => Value.vs r.action
  | Col.seatOrder => Value.vs r.seatOrder
  | Col.player => Value.vs r.player
  | Col.round => Value.vi r.round
  | Col.cost => Value.vi r.cost

/-- A tagged filter, as passed in `filter_args`: `multi` keeps rows whose
value is in the selection (empty selection restricts nothing), `range`
is the inclusive `between(lo, hi)` bound. -/
inductive FilterSpec where
  | multi (values : List Value)
  | range (lo hi : Int)
deriving DecidableEq, Repr

/-- Whether a row passes one (column, filter) entry of the kwargs loop in
`cached_filter`. -/
def passFilter (r : Row) (col : Col) : FilterSpec → Bool
  | FilterSpec.multi values =>
      if values.isEmpty then true else values.contains (colValue r col)
  | FilterSpec.range lo hi =>
      match colValue r col with
      | Value.vi n => decide (lo ≤ n) && decide (n ≤ hi)
      | _ => false

/-- The boolean `filter_mask` of `cached_filter`, conjoined over all
kwargs entries. -/
def rowMask (fs : List (Col × FilterSpec)) (r : Row) : Bool :=
  fs.all (fun cf => passFilter r cf.1 cf.2)

/-- `cached_filter(df, **kwargs)`: select the rows passing every filter,
keeping the source row order (`df[filter_mask]`). -/
def cached_filter (df : List Row) (fs : List (Col × FilterSpec)) : List Row :=
  df.filter (rowMask fs)

/-- The group key of a row for a list of grouping dimensions. -/
def groupKey (dims : List Col) (r : Row) : List Value := dims.map (colValue r)

/-- `df.groupby(dimensions)`: one group per distinct key combination
occurring in the data, each holding the rows with that key. -/
def groupDF (df : List Row) (dims : List Col) : List (List Value × List Row) :=
  ((df.map (groupKey dims)).dedup).map
    (fun k => (k, df.filter (fun r => decide (groupKey dims r = k))))

/-- `cached_groupby(df, dimensions)`: apply `calculate_stats` per group
and keep the groups with `总场数 > 0` (`result[result.总场数 > 0]`). -/
def cached_groupby (df : List Row) (dims : List Col) : List (List Value × Stats) :=
  ((groupDF df dims).map (fun p => (p.1, calculate_stats p.2))).filter
    (fun p => decide (p.2.totalCount > 0))

/-- The result table built in `render_main` before sorting: it stays the
empty `pd.DataFrame()` when the filtered view is empty or no dimension is
selected, and is `cached_groupby(df, dims)` otherwise. -/
def render_result (df : List Row) (dims : List Col) : List (List Value × Stats) :=
  if df.isEmpty || dims.isEmpty then [] else cached_groupby df dims

/-- Sample row: match m1, player X, card A, a win on round 2, cost 1. -/
def rowW : Row :=
  { group := "G1", color := 4, cardType := some "奇迹", cardName := "A"
    action := "打出", seatOrder := "先", player := "X", round := 2, cost := 1
    outcome := "赢", matchCode := "m1" }

/-- Sample row: same match m1 and player X as `rowW`, same card A, but
recorded as a loss on round 4 — an outcome-inconsistent duplicate pair. -/
def rowL : Row :=
  { group := "G1", color := 4, cardType := some "奇迹", cardName := "A"
    action := "打出", seatOrder := "先", player := "X", round := 4, cost := 3
    outcome := "输", matchCode := "m1" }

/-- Sample raw row whose color code 5 is absent from COLOR_MAPPING. -/
def badRaw : RawRow :=
  { group := "G1", color := 5, cardName := "B", action := "打出"
    seatOrder := "后", player := "Y", round := 1, cost := 0
    outcome := "赢", matchCode := "m2" }

/-! ## Helper lemmas -/

theorem uniqueCount_eq_card (rows : List Row) :
    uniqueCount rows = (rows.map pairKey).toFinset.card := by
  rw [uniqueCount, List.card_toFinset]

theorem uniqueCount_append_replicate_of_mem (g : List Row) (r : Row) (n : Nat)
    (h : r ∈ g) : uniqueCount (g ++ List.replicate n r) = uniqueCount g := by
  rw [uniqueCount_eq_card, uniqueCount_eq_card]
  congr 1
  rw [List.map_append, List.toFinset_append]
  apply Finset.union_eq_left.mpr
  intro x hx
  rw [List.mem_toFinset, List.map_replicate] at hx
  rw [List.eq_of_mem_replicate hx, List.mem_toFinset]
  exact List.mem_map_of_mem pairKey h

theorem keys_filter_subset (p : Row → Bool) (g : List Row) :
    ((g.filter p).map pairKey).toFinset ⊆ (g.map pairKey).toFinset := by
  intro x hx
  rw [List.mem_toFinset] at hx ⊢
  obtain ⟨r, hr, rfl⟩ := List.mem_map.mp hx
  exact List.mem_map_of_mem pairKey (List.mem_of_mem_filter hr)

theorem uniqueCount_filter_le (p : Row → Bool) (g : List Row) :
    uniqueCount (g.filter p) ≤ uniqueCount g := by
  rw [uniqueCount_eq_card, uniqueCount_eq_card]
  exact Finset.card_le_card (keys_filter_subset p g)

theorem allKeys_subset_win_union_loss (g : List Row) :
    (g.map pairKey).toFinset ⊆
      ((winRows g).map pairKey).toFinset ∪ ((lossRows g).map pairKey).toFinset := by
  intro x hx
  rw [List.mem_toFinset] at hx
  obtain ⟨r, hr, rfl⟩ := List.mem_map.mp hx
  by_cases hw : isWin r
  · apply Finset.mem_union_left
    rw [List.mem_toFinset]
    exact List.mem_map_of_mem pairKey (List.mem_filter.mpr ⟨hr, hw⟩)
  · apply Finset.mem_union_right
    rw [List.mem_toFinset]
    exact List.mem_map_of_mem pairKey
      (List.mem_filter.mpr ⟨hr, by simp [hw]⟩)

theorem totalCount_le_winCount_add_lossCount (g : List Row) :
    uniqueCount g ≤ uniqueCount (winRows g) + uniqueCount (lossRows g) := by
  rw [uniqueCount_eq_card, uniqueCount_eq_card, uniqueCount_eq_card]
  calc (g.map pairKey).toFinset.card
      ≤ (((winRows g).map pairKey).toFinset ∪
          ((lossRows g).map pairKey).toFinset).card :=
        Finset.card_le_card (allKeys_subset_win_union_loss g)
    _ ≤ ((winRows g).map pairKey).toFinset.card +
          ((lossRows g).map pairKey).toFinset.card := Finset.card_union_le ..

theorem winCount_le_totalCount (g : List Row) :
    uniqueCount (winRows g) ≤ uniqueCount g := uniqueCount_filter_le _ g

theorem lossCount_le_totalCount (g : List Row) :
    uniqueCount (lossRows g) ≤ uniqueCount g := uniqueCount_filter_le _ g

theorem calculate_stats_totalCount (g : List Row) :
    (calculate_stats g).totalCount = uniqueCount g := rfl

theorem calculate_stats_winCount (g : List Row) :
    (calculate_stats g).winCount = uniqueCount (winRows g) := rfl

theorem calculate_stats_lossCount (g : List Row) :
    (calculate_stats g).lossCount = uniqueCount (lossRows g) := rfl

theorem calculate_stats_winRate (g : List Row) :
    (calculate_stats g).winRate =
      if uniqueCount g > 0
      then (uniqueCount (winRows g) : ℚ) / (uniqueCount g : ℚ) else 0 := rfl

theorem uniqueCount_filter_append_replicate (p : Row → Bool) (g : List Row)
    (r : Row) (n : Nat) (h : r ∈ g) :
    uniqueCount ((g ++ List.replicate n r).filter p) = uniqueCount (g.filter p) := by
  rw [List.filter_append]
  by_cases hp : p r
  · have hrep : (List.replicate n r).filter p = List.replicate n r :=
      List.filter_eq_self.mpr
        (fun a ha => by rw [List.eq_of_mem_replicate ha]; exact hp)
    rw [hrep]
    exact uniqueCount_append_replicate_of_mem _ r n (List.mem_filter.mpr ⟨h, hp⟩)
  · have hrep : (List.replicate n r).filter p = [] :=
      List.filter_eq_nil_iff.mpr
        (fun a ha => by rw [List.eq_of_mem_replicate ha]; exact hp)
    rw [hrep, List.append_nil]

/-! ## Claims -/

/-- C1: the per-group statistics count distinct (match_code, player)
pairs, not raw rows: appending N duplicate copies of a row already in
the group changes none of 总场数 (total), 胜场数 (win), 负场数 (loss). -/
theorem claim1_dedup_invariant (g : List Row) (r : Row) (n : Nat) (h : r ∈ g) :
    (calculate_stats (g ++ List.replicate n r)).totalCount =
        (calculate_stats g).totalCount ∧
    (calculate_stats (g ++ List.replicate n r)).winCount =
        (calculate_stats g).winCount ∧
    (calculate_stats (g ++ List.replicate n r)).lossCount =
        (calculate_stats g).lossCount := by
  refine ⟨?_, ?_, ?_⟩
  · rw [calculate_stats_totalCount, calculate_stats_totalCount]
    exact uniqueCount_append_replicate_of_mem g r n h
  · rw [calculate_stats_winCount, calculate_stats_winCount]
    exact uniqueCount_filter_append_replicate isWin g r n h
  · rw [calculate_stats_lossCount, calculate_stats_lossCount]
    exact uniqueCount_filter_append_replicate (fun x => !(isWin x)) g r n h

/-- Witness for C1 at a concrete group and two duplicate copies. -/
theorem claim1_witness :
    rowW ∈ [rowW, rowL] ∧
    ((calculate_stats ([rowW, rowL] ++ List.replicate 2 rowW)).totalCount =
        (calculate_stats [rowW, rowL]).totalCount ∧
     (calculate_stats ([rowW, rowL] ++ List.replicate 2 rowW)).winCount =
        (calculate_stats [rowW, rowL]).winCount ∧
     (calculate_stats ([rowW, rowL] ++ List.replicate 2 rowW)).lossCount =
        (calculate_stats [rowW, rowL]).lossCount) :=
  ⟨by simp, claim1_dedup_invariant [rowW, rowL] rowW 2 (by simp)⟩

/-- C10: for every non-empty group, win and loss deduplicated counts are
bounded by the total, and together they cover it (only the lower bound of
partition completeness is guaranteed in general). -/
theorem claim10_count_bounds (g : List Row) (_h : g ≠ []) :
    (calculate_stats g).winCount ≤ (calculate_stats g).totalCount ∧
    (calculate_stats g).lossCount ≤ (calculate_stats g).totalCount ∧
    (calculate_stats g).totalCount ≤
      (calculate_stats g).winCount + (calculate_stats g).lossCount :=
  ⟨winCount_le_totalCount g, lossCount_le_totalCount g,
    totalCount_le_winCount_add_lossCount g⟩

/-- Witness for C10 at a concrete non-empty group. -/
theorem claim10_witness :
    ([rowW, rowL] : List Row) ≠ [] ∧
    ((calculate_stats [rowW, rowL]).winCount ≤
        (calculate_stats [rowW, rowL]).totalCount ∧
     (calculate_stats [rowW, rowL]).lossCount ≤
        (calculate_stats [rowW, rowL]).totalCount ∧
     (calculate_stats [rowW, rowL]).totalCount ≤
        (calculate_stats [rowW, rowL]).winCount +
          (calculate_stats [rowW, rowL]).lossCount) :=
  ⟨by simp, claim10_count_bounds [rowW, rowL] (by simp)⟩

/-- C3: whenever a group's total count is positive its win rate is the
exact quotient win/total and lies in [0, 1]; on a zero total the computed
win rate is 0. -/
theorem claim3_win_rate_bounds (g : List Row) :
    ((calculate_stats g).totalCount > 0 →
      0 ≤ (calculate_stats g).winRate ∧ (calculate_stats g).winRate ≤ 1 ∧
      (calculate_stats g).winRate =
        ((calculate_stats g).winCount : ℚ) / ((calculate_stats g).totalCount : ℚ)) ∧
    ((calculate_stats g).totalCount = 0 → (calculate_stats g).winRate = 0) := by
  rw [calculate_stats_winRate, calculate_stats_totalCount, calculate_stats_winCount]
  constructor
  · intro hpos
    rw [if_pos hpos]
    have hc : (0 : ℚ) < (uniqueCount g : ℚ) := by exact_mod_cast hpos
    refine ⟨by positivity, ?_, rfl⟩
    rw [div_le_one hc]
    exact_mod_cast winCount_le_totalCount g
  · intro h0
    rw [if_neg (by omega)]

/-- C2 fails on the code: grouping the two outcome-inconsistent sample
rows (same match m1, same player X, same card A) by card name produces a
group with win_count = 1, loss_count = 1 but total_count = 1, because the
win/loss masks filter rows before deduplication. -/
theorem claim2_counterexample :
    ¬ (∀ p ∈ cached_groupby [rowW, rowL] [Col.cardName],
        p.2.winCount + p.2.lossCount = p.2.totalCount) := by decide

/-- C2 amended: partition completeness `win_count + loss_count =
total_count` holds for every group whose rows agree on the outcome per
(match_code, player) pair — the data-quality assumption §9 of the spec
identifies; without it only `total_count ≤ win_count + loss_count` is
guaranteed. -/
theorem claim2_partition_completeness (g : List Row)
    (hcons : ∀ r1 ∈ g, ∀ r2 ∈ g, pairKey r1 = pairKey r2 →
      r1.outcome = r2.outcome) :
    (calculate_stats g).winCount + (calculate_stats g).lossCount =
      (calculate_stats g).totalCount := by
  rw [calculate_stats_winCount, calculate_stats_lossCount,
    calculate_stats_totalCount, uniqueCount_eq_card, uniqueCount_eq_card,
    uniqueCount_eq_card]
  have hdisj : Disjoint ((winRows g).map pairKey).toFinset
      ((lossRows g).map pairKey).toFinset := by
    rw [Finset.disjoint_left]
    intro k hkw hkl
    rw [List.mem_toFinset] at hkw hkl
    obtain ⟨r1, hr1, hk1⟩ := List.mem_map.mp hkw
    obtain ⟨r2, hr2, hk2⟩ := List.mem_map.mp hkl
    simp only [winRows, List.mem_filter] at hr1
    simp only [lossRows, List.mem_filter] at hr2
    have hout := hcons r1 hr1.1 r2 hr2.1 (hk1.trans hk2.symm)
    have hsame : isWin r1 = isWin r2 := by simp [isWin, hout]
    have hfalse : isWin r2 = false := by simpa using hr2.2
    rw [hsame, hfalse] at hr1
    exact Bool.false_ne_true hr1.2
  have hunion : ((winRows g).map pairKey).toFinset ∪
      ((lossRows g).map pairKey).toFinset = (g.map pairKey).toFinset := by
    apply Finset.Subset.antisymm
    · exact Finset.union_subset (keys_filter_subset isWin g)
        (keys_filter_subset (fun r => !(isWin r)) g)
    · exact allKeys_subset_win_union_loss g
  rw [← hunion, Finset.card_union_of_disjoint hdisj]

/-- Witness for the amended C2 at a concrete outcome-consistent group. -/
theorem claim2_witness :
    (∀ r1 ∈ [rowW, rowW], ∀ r2 ∈ [rowW, rowW], pairKey r1 = pairKey r2 →
      r1.outcome = r2.outcome) ∧
    (calculate_stats [rowW, rowW]).winCount +
        (calculate_stats [rowW, rowW]).lossCount =
      (calculate_stats [rowW, rowW]).totalCount :=
  ⟨by decide, claim2_partition_completeness [rowW, rowW] (by decide)⟩

/-- Witness for C3 at a concrete group with positive total count. -/
theorem claim3_witness :
    (calculate_stats [rowW]).totalCount > 0 ∧
    (0 ≤ (calculate_stats [rowW]).winRate ∧ (calculate_stats [rowW]).winRate ≤ 1 ∧
      (calculate_stats [rowW]).winRate =
        ((calculate_stats [rowW]).winCount : ℚ) /
          ((calculate_stats [rowW]).totalCount : ℚ)) :=
  ⟨by decide, (claim3_win_rate_bounds [rowW]).1 (by decide)⟩

theorem listMean_eq_none_iff (xs : List Int) : listMean xs = none ↔ xs = [] := by
  by_cases hx : xs = [] <;> simp [listMean, hx]

theorem listMean_of_ne_nil (xs : List Int) (h : xs ≠ []) :
    listMean xs = some ((xs.sum : ℚ) / (xs.length : ℚ)) := by
  simp [listMean, h]

theorem avg_spec (rows : List Row) (f : Row → Int) :
    (listMean (rows.map f) = none ↔ rows = []) ∧
    (rows ≠ [] → listMean (rows.map f) =
      some (((rows.map f).sum : ℚ) / (rows.length : ℚ))) := by
  constructor
  · rw [listMean_eq_none_iff, List.map_eq_nil_iff]
  · intro h
    rw [listMean_of_ne_nil _ (by simp [h]), List.length_map]

/-- C5: a row is classified into the 胜场 (win) subset iff its 胜负 value
is exactly the literal '赢'; every other value, garbage included, lands in
the 负场 (loss) subset, with no validation error. -/
theorem claim5_win_classification (g : List Row) (r : Row) (h : r ∈ g) :
    (r ∈ winRows g ↔ r.outcome = WIN_LITERAL) ∧
    (r ∈ lossRows g ↔ r.outcome ≠ WIN_LITERAL) := by
  refine ⟨?_, ?_⟩ <;> simp [winRows, lossRows, List.mem_filter, isWin, h]

/-- Witness for C5 at a concrete row with a non-win outcome. -/
theorem claim5_witness :
    rowL ∈ [rowW, rowL] ∧
    ((rowL ∈ winRows [rowW, rowL] ↔ rowL.outcome = WIN_LITERAL) ∧
     (rowL ∈ lossRows [rowW, rowL] ↔ rowL.outcome ≠ WIN_LITERAL)) :=
  ⟨by simp, claim5_win_classification [rowW, rowL] rowL (by simp)⟩

/-- C6: each of the six average fields is the arithmetic mean of the raw
(non-deduplicated) rows of its subset — denominator is the subset's row
count, not its deduplicated pair count — and an empty subset yields the
undefined value `none` (pandas NaN), never 0 and never an error. -/
theorem claim6_raw_row_averages (g : List Row) :
    ((calculate_stats g).avgRoundAll = none ↔ g = []) ∧
    (g ≠ [] → (calculate_stats g).avgRoundAll =
      some (((g.map Row.round).sum : ℚ) / (g.length : ℚ))) ∧
    ((calculate_stats g).avgRoundWin = none ↔ winRows g = []) ∧
    (winRows g ≠ [] → (calculate_stats g).avgRoundWin =
      some ((((winRows g).map Row.round).sum : ℚ) / ((winRows g).length : ℚ))) ∧
    ((calculate_stats g).avgRoundLoss = none ↔ lossRows g = []) ∧
    (lossRows g ≠ [] → (calculate_stats g).avgRoundLoss =
      some ((((lossRows g).map Row.round).sum : ℚ) / ((lossRows g).length : ℚ))) ∧
    ((calculate_stats g).avgCostAll = none ↔ g = []) ∧
    (g ≠ [] → (calculate_stats g).avgCostAll =
      some (((g.map Row.cost).sum : ℚ) / (g.length : ℚ))) ∧
    ((calculate_stats g).avgCostWin = none ↔ winRows g = []) ∧
    (winRows g ≠ [] → (calculate_stats g).avgCostWin =
      some ((((winRows g).map Row.cost).sum : ℚ) / ((winRows g).length : ℚ))) ∧
    ((calculate_stats g).avgCostLoss = none ↔ lossRows g = []) ∧
    (lossRows g ≠ [] → (calculate_stats g).avgCostLoss =
      some ((((lossRows g).map Row.cost).sum : ℚ) / ((lossRows g).length : ℚ))) :=
  ⟨(avg_spec g Row.round).1, (avg_spec g Row.round).2,
   (avg_spec (winRows g) Row.round).1, (avg_spec (winRows g) Row.round).2,
   (avg_spec (lossRows g) Row.round).1, (avg_spec (lossRows g) Row.round).2,
   (avg_spec g Row.cost).1, (avg_spec g Row.cost).2,
   (avg_spec (winRows g) Row.cost).1, (avg_spec (winRows g) Row.cost).2,
   (avg_spec (lossRows g) Row.cost).1, (avg_spec (lossRows g) Row.cost).2⟩

/-- Witness for C6 at a concrete non-empty group. -/
theorem claim6_witness :
    ([rowW] : List Row) ≠ [] ∧
    (calculate_stats [rowW]).avgRoundAll =
      some ((([rowW].map Row.round).sum : ℚ) / (([rowW] : List Row).length : ℚ)) :=
  ⟨by simp, (claim6_raw_row_averages [rowW]).2.1 (by simp)⟩

/-- C4: applying the same filter configuration twice yields the same
view as applying it once, and a Membership (multi) filter with an empty
allowed set keeps every row of the view. -/
theorem claim4_filter_idempotent (df : List Row)
    (fs : List (Col × FilterSpec)) (c : Col) :
    cached_filter (cached_filter df fs) fs = cached_filter df fs ∧
    cached_filter df [(c, FilterSpec.multi [])] = df := by
  constructor
  · simp [cached_filter, List.filter_filter, Bool.and_self]
  · apply List.filter_eq_self.mpr
    intro a _
    simp [rowMask, passFilter]

/-- C7: every group that survives aggregation has a positive
deduplicated total count (`result[result.总场数 > 0]`), and an empty
filtered view yields a zero-row result table, not an error. -/
theorem claim7_zero_groups_dropped (df : List Row) (dims : List Col)
    (p : List Value × Stats) :
    (p ∈ cached_groupby df dims → p.2.totalCount > 0) ∧
    render_result [] dims = [] := by
  constructor
  · intro hp
    simpa using (List.mem_filter.mp hp).2
  · simp [render_result]

/-- Witness for C7: the one group of a concrete grouped view, and the
empty view producing the empty result. -/
theorem claim7_witness :
    (([Value.vs "A"], calculate_stats [rowW, rowL]) ∈
        cached_groupby [rowW, rowL] [Col.cardName]) ∧
    (([Value.vs "A"], calculate_stats [rowW, rowL]).2.totalCount > 0 ∧
      render_result ([] : List Row) [Col.cardName] = []) := by
  have hmem : ([Value.vs "A"], calculate_stats [rowW, rowL]) ∈
      cached_groupby [rowW, rowL] [Col.cardName] := by
    have heq : cached_groupby [rowW, rowL] [Col.cardName] =
        [([Value.vs "A"], calculate_stats [rowW, rowL])] := rfl
    rw [heq]
    exact List.mem_singleton.mpr rfl
  exact ⟨hmem,
    (claim7_zero_groups_dropped [rowW, rowL] [Col.cardName]
        ([Value.vs "A"], calculate_stats [rowW, rowL])).1 hmem,
    (claim7_zero_groups_dropped [rowW, rowL] [Col.cardName]
        ([Value.vs "A"], calculate_stats [rowW, rowL])).2⟩

/-- C8 fails on the code: loading a record whose color code 5 is absent
from COLOR_MAPPING succeeds — `Series.map` yields a missing value, no
exception — so a record with a missing card type is silently produced. -/
theorem claim8_counterexample :
    COLOR_MAPPING badRaw.color = none ∧
    load_df [badRaw] = [loadRow badRaw] ∧ (loadRow badRaw).cardType = none :=
  ⟨by decide, rfl, by decide⟩

/-- C8 amended: the load step does not abort on a color_code absent from
the lookup table; it returns one output row per input row and gives the
unmapped row a missing (`none`) card_type. -/
theorem claim8_load_missing_type (raws : List RawRow) (raw : RawRow)
    (h1 : raw ∈ raws) (h2 : COLOR_MAPPING raw.color = none) :
    (load_df raws).length = raws.length ∧
    ∃ row, row ∈ load_df raws ∧ row.cardType = none :=
  ⟨by simp [load_df], ⟨loadRow raw, List.mem_map_of_mem loadRow h1, h2⟩⟩

/-- Witness for the amended C8 at the concrete unmapped raw record. -/
theorem claim8_witness :
    badRaw ∈ [badRaw] ∧ COLOR_MAPPING badRaw.color = none ∧
    ((load_df [badRaw]).length = [badRaw].length ∧
      ∃ row, row ∈ load_df [badRaw] ∧ row.cardType = none) :=
  ⟨by simp, by decide, claim8_load_missing_type [badRaw] badRaw (by simp) (by decide)⟩

end TTA
